import Mathlib

/-!
Verification of the frame-update core of the "Jumping Kangaroo" scene.

The repository contains two versions of the same scene
(`src/unnamed/part_000` and `src/app/index.tsx`); each has:
  * scrolling groups (Hills, Clouds) moved each frame by
    `position.x -= delta * speed` and reset to `0` once
    `position.x < -wrapThreshold`;
  * a jump simulator (Kangaroo) with state `isJumping`, `velocityY`,
    `positionY`, updated each frame by semi-implicit Euler with a ground
    clamp, plus a periodic timer that starts a jump when not already
    jumping.

Numbers are modelled as rationals; JS `number` arithmetic on these small
values is exact in the regimes the claims exercise, and the spec's
properties are stated over exact arithmetic.
-/

/-- Configuration of one scrolling group, per instance: scroll speed, the
wrap threshold, and the value the offset is reset to.  In both versions of
the scene every instance resets to the literal `0`, recorded here as
`resetValue = 0`. -/
structure ScrollCfg where
  speed : ℚ
  wrapThreshold : ℚ
  resetValue : ℚ
deriving DecidableEq

/-- One frame of a scrolling group (the body of its `useFrame` callback):
`position.x -= delta * speed; if (position.x < -wrapThreshold) position.x = resetValue`.
The reset test is on the already-decremented offset, with a strict `<`. -/
def scrollTick (c : ScrollCfg) (dt : ℚ) (offsetX : ℚ) : ℚ :=
  if offsetX - c.speed * dt < -c.wrapThreshold then c.resetValue
  else offsetX - c.speed * dt

/-- Hills of `src/unnamed/part_000`: `delta * 5`, reset below `-40` to `0`. -/
def hillsV1 : ScrollCfg := ⟨5, 40, 0⟩

/-- Clouds of `src/unnamed/part_000`: `delta * 2`, reset below `-50` to `0`. -/
def cloudsV1 : ScrollCfg := ⟨2, 50, 0⟩

/-- Hills of `src/app/index.tsx`: `delta * 3`, reset below `-60` to `0`. -/
def hillsV2 : ScrollCfg := ⟨3, 60, 0⟩

/-- Clouds of `src/app/index.tsx`: `delta * 1.5`, reset below `-60` to `0`. -/
def cloudsV2 : ScrollCfg := ⟨3/2, 60, 0⟩

/-- Constants of one Kangaroo instance: `gravity`, `jumpForce`, `groundLevel`. -/
structure JumpCfg where
  gravity : ℚ
  jumpForce : ℚ
  groundLevel : ℚ
deriving DecidableEq

/-- Kangaroo constants of `src/unnamed/part_000`. -/
def kangarooV1 : JumpCfg := ⟨-15, 8, 0⟩

/-- Kangaroo constants of `src/app/index.tsx`. -/
def kangarooV2 : JumpCfg := ⟨-20, 9, 0⟩

/-- The jump simulator's state: the `isJumping` flag, `velocityY.current`
and `positionY.current`.  (The cosmetic `rotation.y` animation reads only
the clock and touches none of these fields, so it is not part of the
state.) -/
structure JumpS where
  isJumping : Bool
  velocityY : ℚ
  positionY : ℚ
deriving DecidableEq

/-- Initial Kangaroo state: not jumping, `velocityY = 0`, `positionY = 0`
(which is `groundLevel` in both versions). -/
def jumpInit (c : JumpCfg) : JumpS := ⟨false, 0, c.groundLevel⟩

/-- One firing of the 2 s (resp. 1.8 s) `setInterval` callback:
`if (!isJumping) { setIsJumping(true); velocityY.current = jumpForce; }`. -/
def fireTimer (c : JumpCfg) (s : JumpS) : JumpS :=
  if s.isJumping then s else ⟨true, c.jumpForce, s.positionY⟩

/-- One frame of the Kangaroo's `useFrame` callback.  While jumping:
`velocityY += gravity * delta`, then `positionY += velocityY * delta`
(with the already-updated velocity), then if `positionY <= groundLevel`
the state is clamped to `positionY = groundLevel`, `velocityY = 0`,
`isJumping = false`.  While not jumping, nothing but the cosmetic rotation
runs. -/
def jumpTick (c : JumpCfg) (dt : ℚ) (s : JumpS) : JumpS :=
  if s.isJumping then
    if s.positionY + (s.velocityY + c.gravity * dt) * dt ≤ c.groundLevel then
      ⟨false, 0, c.groundLevel⟩
    else
      ⟨true, s.velocityY + c.gravity * dt, s.positionY + (s.velocityY + c.gravity * dt) * dt⟩
  else s

/-- An event acting on the jump simulator: a frame tick with its delta
time, or a firing of the auto-jump timer. -/
inductive JEvent where
  | tick (dt : ℚ)
  | fire
deriving DecidableEq

/-- Action of one event on the jump state. -/
def jstep (c : JumpCfg) (e : JEvent) (s : JumpS) : JumpS :=
  match e with
  | .tick dt => jumpTick c dt s
  | .fire => fireTimer c s

/-- Run a sequence of events from a state. -/
def jrun (c : JumpCfg) : List JEvent → JumpS → JumpS
  | [], s => s
  | e :: es, s => jrun c es (jstep c e s)

/-- An event is valid when its delta time is nonnegative (timer firings
are always valid). -/
def validEv : JEvent → Prop
  | .tick dt => 0 ≤ dt
  | .fire => True

instance : DecidablePred validEv := fun e => by
  cases e with
  | tick dt => exact inferInstanceAs (Decidable (0 ≤ dt))
  | fire => exact inferInstanceAs (Decidable True)

/-- A jump state is reachable when some sequence of valid events produces
it from the initial state. -/
def JReach (c : JumpCfg) (s : JumpS) : Prop :=
  ∃ es : List JEvent, (∀ e ∈ es, validEv e) ∧ s = jrun c es (jumpInit c)

/-- The state invariant of the jump simulator: the position never falls
below ground, and a grounded state is exactly at ground with zero
velocity. -/
def JInv (c : JumpCfg) (s : JumpS) : Prop :=
  c.groundLevel ≤ s.positionY ∧
    (s.isJumping = false → s.positionY = c.groundLevel ∧ s.velocityY = 0)

lemma jumpTick_preserves_JInv (c : JumpCfg) (dt : ℚ) (s : JumpS)
    (h : JInv c s) : JInv c (jumpTick c dt s) := by
  unfold jumpTick JInv
  rcases h with ⟨hp, hg⟩
  by_cases hj : s.isJumping
  · simp only [hj, if_true]
    by_cases hland : s.positionY + (s.velocityY + c.gravity * dt) * dt ≤ c.groundLevel
    · simp [hland]
    · simp only [hland, if_false]
      constructor
      · linarith [lt_of_not_le hland]
      · intro h; cases h
  · simp only [hj]
    exact ⟨hp, hg⟩

lemma fireTimer_preserves_JInv (c : JumpCfg) (s : JumpS)
    (h : JInv c s) : JInv c (fireTimer c s) := by
  unfold fireTimer JInv
  rcases h with ⟨hp, hg⟩
  by_cases hj : s.isJumping
  · simp only [hj, if_true]
    exact ⟨hp, fun h => nomatch h⟩
  · simp only [hj, if_false]
    constructor
    · exact hp
    · intro h; cases h

lemma jstep_preserves_JInv (c : JumpCfg) (e : JEvent) (s : JumpS)
    (h : JInv c s) : JInv c (jstep c e s) := by
  cases e with
  | tick dt => exact jumpTick_preserves_JInv c dt s h
  | fire => exact fireTimer_preserves_JInv c s h

lemma jrun_preserves_JInv (c : JumpCfg) (es : List JEvent) (s : JumpS)
    (h : JInv c s) : JInv c (jrun c es s) := by
  induction es generalizing s with
  | nil => exact h
  | cons e es ih => exact ih _ (jstep_preserves_JInv c e s h)

lemma JInv_init (c : JumpCfg) : JInv c (jumpInit c) := by
  unfold JInv jumpInit
  exact ⟨le_refl _, fun _ => ⟨rfl, rfl⟩⟩

lemma JReach_JInv (c : JumpCfg) (s : JumpS) (h : JReach c s) : JInv c s := by
  rcases h with ⟨es, _, rfl⟩
  exact jrun_preserves_JInv c es _ (JInv_init c)

/-- C1: while `isJumping`, a tick with `dt ≥ 0` performs the semi-implicit
Euler step — `velocityY` becomes `velocityY + gravity*dt` and `positionY`
becomes `positionY + (updated velocityY)*dt` — and if the resulting
position is at or below `groundLevel`, the same tick clamps the state to
`positionY = groundLevel`, `velocityY = 0`, `isJumping = false`. -/
theorem airborne_tick_semi_implicit_euler (c : JumpCfg) (dt : ℚ) (s : JumpS)
    (hdt : 0 ≤ dt) (hj : s.isJumping = true) :
    (s.positionY + (s.velocityY + c.gravity * dt) * dt ≤ c.groundLevel →
      jumpTick c dt s = ⟨false, 0, c.groundLevel⟩) ∧
    (c.groundLevel < s.positionY + (s.velocityY + c.gravity * dt) * dt →
      jumpTick c dt s =
        ⟨true, s.velocityY + c.gravity * dt,
          s.positionY + (s.velocityY + c.gravity * dt) * dt⟩) := by
  unfold jumpTick
  constructor
  · intro hland
    simp [hj, hland]
  · intro hup
    simp [hj, not_le.mpr hup]

/-- Witness for C1: a concrete airborne tick of the first Kangaroo. -/
theorem airborne_tick_semi_implicit_euler_witness :
    jumpTick kangarooV1 (1/60) ⟨true, 8, 0⟩ = ⟨true, 31/4, 31/240⟩ := by
  have h := airborne_tick_semi_implicit_euler kangarooV1 (1/60) ⟨true, 8, 0⟩
    (by norm_num) rfl
  have h2 := h.2 (by norm_num [kangarooV1])
  rw [h2]
  norm_num [kangarooV1]

/-- C2: for `dt ≥ 0`, the post-tick offset is `offsetX - speed*dt` when
that value is at least `-wrapThreshold`, and is exactly `resetValue` when
it is strictly below `-wrapThreshold`. -/
theorem scroll_tick_wrap (c : ScrollCfg) (dt : ℚ) (offsetX : ℚ)
    (hdt : 0 ≤ dt) :
    (-c.wrapThreshold ≤ offsetX - c.speed * dt →
      scrollTick c dt offsetX = offsetX - c.speed * dt) ∧
    (offsetX - c.speed * dt < -c.wrapThreshold →
      scrollTick c dt offsetX = c.resetValue) := by
  unfold scrollTick
  constructor
  · intro h
    simp [not_lt.mpr h]
  · intro h
    simp [h]

/-- Witness for C2: a concrete tick of the first Hills group, one landing
in each branch. -/
theorem scroll_tick_wrap_witness :
    scrollTick hillsV1 (1/30) 0 = -(1/6) ∧ scrollTick hillsV1 2 (-31) = 0 := by
  constructor
  · have h := (scroll_tick_wrap hillsV1 (1/30) 0 (by norm_num)).1
      (by norm_num [hillsV1])
    rw [h]
    norm_num [hillsV1]
  · have h := (scroll_tick_wrap hillsV1 2 (-31) (by norm_num)).2
      (by norm_num [hillsV1])
    rw [h]
    norm_num [hillsV1]

/-- C3: every state reachable from the initial state by valid events,
observed at tick boundaries, satisfies: the position is at or above
ground, the velocity is nonzero only while jumping, and a non-jumping
state is exactly grounded with zero velocity. -/
theorem reachable_state_invariants (c : JumpCfg) (s : JumpS)
    (h : JReach c s) :
    c.groundLevel ≤ s.positionY ∧
    (s.velocityY ≠ 0 → s.isJumping = true) ∧
    (s.isJumping = false → s.positionY = c.groundLevel ∧ s.velocityY = 0) := by
  have hi := JReach_JInv c s h
  refine ⟨hi.1, ?_, hi.2⟩
  intro hv
  cases hsj : s.isJumping with
  | true => rfl
  | false => exact absurd (hi.2 hsj).2 hv

/-- Witness for C3: the state after a timer firing and one frame is
reachable, and the invariants hold there. -/
theorem reachable_state_invariants_witness :
    kangarooV1.groundLevel ≤
      (jrun kangarooV1 [JEvent.fire, JEvent.tick (1/60)]
        (jumpInit kangarooV1)).positionY :=
  (reachable_state_invariants kangarooV1 _
    ⟨[JEvent.fire, JEvent.tick (1/60)],
      by intro e he; simp only [List.mem_cons, List.not_mem_nil, or_false] at he
         rcases he with rfl | rfl
         · trivial
         · show (0:ℚ) ≤ 1/60; norm_num,
      rfl⟩).1

/-- C5: a firing of the auto-jump timer while `isJumping = true` changes
nothing — the trigger is dropped by the `if (!isJumping)` guard. -/
theorem timer_fire_airborne_noop (c : JumpCfg) (s : JumpS)
    (hj : s.isJumping = true) :
    fireTimer c s = s := by
  unfold fireTimer
  simp [hj]

/-- Witness for C5: a concrete airborne state is unmoved by a firing. -/
theorem timer_fire_airborne_noop_witness :
    fireTimer kangarooV1 ⟨true, 5, 3⟩ = ⟨true, 5, 3⟩ :=
  timer_fire_airborne_noop kangarooV1 ⟨true, 5, 3⟩ rfl

/-- C10: a tick with any `dt ≥ 0` while not jumping leaves `positionY`
and `velocityY` (indeed the whole jump state) unchanged: the physics
update is guarded by `isJumping`, and only the cosmetic rotation runs. -/
theorem grounded_tick_noop (c : JumpCfg) (dt : ℚ) (s : JumpS)
    (hdt : 0 ≤ dt) (hj : s.isJumping = false) :
    jumpTick c dt s = s := by
  unfold jumpTick
  simp [hj]

/-- Witness for C10: a grounded tick of the second Kangaroo at `dt = 1/60`. -/
theorem grounded_tick_noop_witness :
    jumpTick kangarooV2 (1/60) (jumpInit kangarooV2) = jumpInit kangarooV2 :=
  grounded_tick_noop kangarooV2 (1/60) (jumpInit kangarooV2) (by norm_num) rfl

/-- Counterexample to C4: the state just after a jump trigger
(`isJumping = true`, `velocityY = jumpForce`, `positionY = groundLevel`)
is reachable, and a tick with `dt = 0` does NOT leave it unchanged — the
ground clamp (`positionY ≤ groundLevel`) fires and cancels the jump. -/
theorem tick_zero_not_always_noop :
    JReach kangarooV1 ⟨true, 8, 0⟩ ∧
    jumpTick kangarooV1 0 ⟨true, 8, 0⟩ ≠ ⟨true, 8, 0⟩ := by
  constructor
  · exact ⟨[JEvent.fire],
      by intro e he
         simp only [List.mem_singleton] at he
         subst he
         trivial,
      rfl⟩
  · norm_num [jumpTick, kangarooV1]

/-- C4 (amended): a tick with `dt = 0` leaves every scroll offset at or
above `-wrapThreshold` unchanged, leaves the jump state unchanged when
not jumping or when strictly above ground, but in the just-triggered
state (`isJumping = true`, `positionY ≤ groundLevel`) it lands at once:
`isJumping := false`, `velocityY := 0`, `positionY := groundLevel`. -/
theorem tick_zero_noop_except_just_triggered (cs : ScrollCfg) (cj : JumpCfg)
    (off : ℚ) (s : JumpS) :
    (-cs.wrapThreshold ≤ off → scrollTick cs 0 off = off) ∧
    (s.isJumping = false → jumpTick cj 0 s = s) ∧
    (s.isJumping = true → cj.groundLevel < s.positionY → jumpTick cj 0 s = s) ∧
    (s.isJumping = true → s.positionY ≤ cj.groundLevel →
      jumpTick cj 0 s = ⟨false, 0, cj.groundLevel⟩) := by
  obtain ⟨j, v, p⟩ := s
  refine ⟨?_, ?_, ?_, ?_⟩
  · intro h
    unfold scrollTick
    rw [mul_zero, sub_zero, if_neg (not_lt.mpr h)]
  · intro hj
    simp only at hj
    subst hj
    simp [jumpTick]
  · intro hj hp
    simp only at hj hp
    subst hj
    unfold jumpTick
    simp only [if_true, mul_zero, add_zero, zero_mul]
    rw [if_neg (not_le.mpr hp)]
  · intro hj hp
    simp only at hj hp
    subst hj
    unfold jumpTick
    simp only [if_true, mul_zero, add_zero, zero_mul]
    rw [if_pos hp]

/-- Witness for the amended C4: a `dt = 0` tick fixes a concrete scroll
offset and a concrete airborne state above ground, and lands the concrete
just-triggered state. -/
theorem tick_zero_noop_except_just_triggered_witness :
    scrollTick hillsV1 0 (-5) = -5 ∧
    jumpTick kangarooV1 0 ⟨true, 1, 2⟩ = ⟨true, 1, 2⟩ ∧
    jumpTick kangarooV1 0 ⟨true, 8, 0⟩ = ⟨false, 0, 0⟩ := by
  refine ⟨?_, ?_, ?_⟩
  · exact (tick_zero_noop_except_just_triggered hillsV1 kangarooV1 (-5)
      ⟨true, 1, 2⟩).1 (by norm_num [hillsV1])
  · exact (tick_zero_noop_except_just_triggered hillsV1 kangarooV1 (-5)
      ⟨true, 1, 2⟩).2.2.1 rfl (by norm_num [kangarooV1])
  · exact (tick_zero_noop_except_just_triggered hillsV1 kangarooV1 (-5)
      ⟨true, 8, 0⟩).2.2.2 rfl (by norm_num [kangarooV1])

/-- Counterexample to C6: two reachable jump episodes with `dt > 0` ticks
falsify the per-tick monotonicity as claimed.  From the just-triggered
state `⟨true, 8, 0⟩`, a single tick with `dt = 1` has negative updated
velocity (descent) yet `positionY` does not strictly decrease — it stays
at `0` while the episode lands.  And from the reachable descending state
`⟨true, -1, 3/20⟩`, the landing tick resets `velocityY` to `0`, which is
an increase from `-1`, not a strict decrease. -/
theorem jump_episode_monotonicity_fails :
    JReach kangarooV1 ⟨true, 8, 0⟩ ∧
    jumpTick kangarooV1 1 ⟨true, 8, 0⟩ = ⟨false, 0, 0⟩ ∧
    (jumpTick kangarooV1 1 ⟨true, 8, 0⟩).positionY =
      (⟨true, 8, 0⟩ : JumpS).positionY ∧
    JReach kangarooV1 ⟨true, -1, 3/20⟩ ∧
    jumpTick kangarooV1 1 ⟨true, -1, 3/20⟩ = ⟨false, 0, 0⟩ ∧
    (⟨true, -1, 3/20⟩ : JumpS).velocityY <
      (jumpTick kangarooV1 1 ⟨true, -1, 3/20⟩).velocityY := by
  have hland : jumpTick kangarooV1 1 ⟨true, 8, 0⟩ = ⟨false, 0, 0⟩ := by
    norm_num [jumpTick, kangarooV1]
  have hland2 : jumpTick kangarooV1 1 ⟨true, -1, 3/20⟩ = ⟨false, 0, 0⟩ := by
    norm_num [jumpTick, kangarooV1]
  refine ⟨?_, hland, ?_, ?_, hland2, ?_⟩
  · exact ⟨[JEvent.fire],
      by intro e he
         simp only [List.mem_singleton] at he
         subst he
         trivial,
      rfl⟩
  · rw [hland]
  · refine ⟨[JEvent.fire, JEvent.tick (1/2), JEvent.tick (1/10)], ?_, ?_⟩
    · intro e he
      simp only [List.mem_cons, List.not_mem_nil, or_false] at he
      rcases he with rfl | rfl | rfl
      · trivial
      · show (0:ℚ) ≤ 1/2; norm_num
      · show (0:ℚ) ≤ 1/10; norm_num
    · show _ = jrun kangarooV1 _ _
      norm_num [jrun, jstep, jumpTick, fireTimer, jumpInit, kangarooV1]
  · rw [hland2]
    norm_num

/-- C6 (amended): on every Airborne tick with `dt > 0` (gravity negative,
position at or above ground): the updated velocity `velocityY + gravity*dt`
is strictly below the pre-tick velocity; if the updated velocity is
positive the tick stays Airborne and `positionY` strictly increases; if
the updated velocity is negative and the pre-tick position is strictly
above ground, `positionY` strictly decreases; a landing tick ends with
`positionY` exactly `groundLevel` and `velocityY` reset to `0`; a
non-landing tick stores the (strictly decreased) updated velocity and a
position strictly above ground (so `isJumping` stays true until the
landing tick makes it false). -/
theorem jump_episode_per_tick (c : JumpCfg) (dt : ℚ) (s : JumpS)
    (hg : c.gravity < 0) (hdt : 0 < dt) (hj : s.isJumping = true)
    (hp : c.groundLevel ≤ s.positionY) :
    (s.velocityY + c.gravity * dt < s.velocityY) ∧
    (0 < s.velocityY + c.gravity * dt →
      jumpTick c dt s = ⟨true, s.velocityY + c.gravity * dt,
        s.positionY + (s.velocityY + c.gravity * dt) * dt⟩ ∧
      s.positionY < s.positionY + (s.velocityY + c.gravity * dt) * dt) ∧
    (s.velocityY + c.gravity * dt < 0 → c.groundLevel < s.positionY →
      (jumpTick c dt s).positionY < s.positionY) ∧
    ((jumpTick c dt s).isJumping = false →
      (jumpTick c dt s).positionY = c.groundLevel ∧
      (jumpTick c dt s).velocityY = 0) ∧
    ((jumpTick c dt s).isJumping = true →
      (jumpTick c dt s).velocityY = s.velocityY + c.gravity * dt ∧
      c.groundLevel < (jumpTick c dt s).positionY) := by
  have hgdt : c.gravity * dt < 0 := mul_neg_of_neg_of_pos hg hdt
  refine ⟨by linarith, ?_, ?_, ?_, ?_⟩
  · intro hv
    have hstep : 0 < (s.velocityY + c.gravity * dt) * dt := mul_pos hv hdt
    have hup : ¬ s.positionY + (s.velocityY + c.gravity * dt) * dt ≤ c.groundLevel := by
      push_neg
      linarith
    constructor
    · unfold jumpTick
      rw [if_pos hj, if_neg hup]
    · linarith
  · intro hv hpp
    have hstep : (s.velocityY + c.gravity * dt) * dt < 0 :=
      mul_neg_of_neg_of_pos hv hdt
    unfold jumpTick
    rw [if_pos hj]
    by_cases hland : s.positionY + (s.velocityY + c.gravity * dt) * dt ≤ c.groundLevel
    · rw [if_pos hland]
      exact hpp
    · rw [if_neg hland]
      show s.positionY + (s.velocityY + c.gravity * dt) * dt < s.positionY
      linarith
  · unfold jumpTick
    rw [if_pos hj]
    by_cases hland : s.positionY + (s.velocityY + c.gravity * dt) * dt ≤ c.groundLevel
    · rw [if_pos hland]
      exact fun _ => ⟨rfl, rfl⟩
    · rw [if_neg hland]
      intro h
      cases h
  · unfold jumpTick
    rw [if_pos hj]
    by_cases hland : s.positionY + (s.velocityY + c.gravity * dt) * dt ≤ c.groundLevel
    · rw [if_pos hland]
      intro h
      cases h
    · rw [if_neg hland]
      intro _
      exact ⟨rfl, lt_of_not_le hland⟩

/-- Witness for the amended C6: an ascending tick of the first Kangaroo
from the just-triggered state. -/
theorem jump_episode_per_tick_witness :
    jumpTick kangarooV1 (1/4) ⟨true, 8, 0⟩ = ⟨true, 17/4, 17/16⟩ := by
  have h := ((jump_episode_per_tick kangarooV1 (1/4) ⟨true, 8, 0⟩
    (by norm_num [kangarooV1]) (by norm_num) rfl
    (by norm_num [kangarooV1])).2.1 (by norm_num [kangarooV1])).1
  rw [h]
  norm_num [kangarooV1, JumpS.mk.injEq]

lemma kangarooV1_gravity : kangarooV1.gravity = -15 := rfl

lemma kangarooV1_groundLevel : kangarooV1.groundLevel = 0 := rfl

lemma jumpTick_mk_true (c : JumpCfg) (dt v p : ℚ) :
    jumpTick c dt ⟨true, v, p⟩ =
      if p + (v + c.gravity * dt) * dt ≤ c.groundLevel then
        ⟨false, 0, c.groundLevel⟩
      else ⟨true, v + c.gravity * dt, p + (v + c.gravity * dt) * dt⟩ := rfl

lemma jumpTick_mk_false (c : JumpCfg) (dt v p : ℚ) :
    jumpTick c dt ⟨false, v, p⟩ = ⟨false, v, p⟩ := rfl

/-- The end-to-end scenario of the spec: first Kangaroo constants
(`gravity = -15`, `jumpForce = 8`, `groundLevel = 0`), fixed step
`dt = 1/60`, the timer fired once at tick 0 from the initial state;
`simC7 n` is the state after `n` ticks. -/
def simC7 (n : Nat) : JumpS :=
  (fun s => jumpTick kangarooV1 (1/60) s)^[n]
    (fireTimer kangarooV1 (jumpInit kangarooV1))

lemma simC7_succ (n : Nat) :
    simC7 (n + 1) = jumpTick kangarooV1 (1/60) (simC7 n) :=
  Function.iterate_succ_apply' _ n _

/-- Closed form while airborne: after `n ≤ 62` ticks the velocity is
`8 - n/4` and the position is `n (63 - n) / 480`. -/
lemma simC7_closed (n : Nat) (hn : n ≤ 62) :
    simC7 n = ⟨true, 8 - (n : ℚ)/4, (n : ℚ) * (63 - (n : ℚ)) / 480⟩ := by
  induction n with
  | zero =>
    show fireTimer kangarooV1 (jumpInit kangarooV1) = _
    norm_num [fireTimer, jumpInit, kangarooV1]
  | succ n ih =>
    have hn61 : n ≤ 61 := by omega
    rw [simC7_succ, ih (by omega), jumpTick_mk_true, kangarooV1_gravity,
      kangarooV1_groundLevel]
    have harith : (n:ℚ) * (63 - (n:ℚ)) / 480 +
        ((8 - (n:ℚ)/4) + (-15) * (1/60)) * (1/60)
        = ((n:ℚ) + 1) * (62 - (n:ℚ)) / 480 := by ring
    rw [harith]
    have h2 : (n:ℚ) ≤ 61 := by exact_mod_cast hn61
    have hq : ¬ (((n:ℚ) + 1) * (62 - (n:ℚ)) / 480 ≤ 0) := by
      push_neg
      apply div_pos
      · apply mul_pos
        · positivity
        · linarith
      · norm_num
    rw [if_neg hq]
    simp only [JumpS.mk.injEq, true_and]
    constructor
    · push_cast
      ring
    · push_cast
      ring

lemma simC7_63 : simC7 63 = ⟨false, 0, 0⟩ := by
  rw [simC7_succ, simC7_closed 62 (by norm_num), jumpTick_mk_true,
    kangarooV1_gravity, kangarooV1_groundLevel]
  norm_num

lemma simC7_JInv (n : Nat) : JInv kangarooV1 (simC7 n) := by
  induction n with
  | zero => exact ⟨le_refl 0, fun h => nomatch h⟩
  | succ n ih =>
    rw [simC7_succ]
    exact jumpTick_preserves_JInv _ _ _ ih

/-- C7: in the fixed-step scenario (`gravity = -15`, `jumpForce = 8`,
`groundLevel = 0`, `dt = 1/60`, one trigger at tick 0), the simulator is
still Airborne through tick 62, lands with `positionY` exactly `0` on
tick 63 — inside the claimed window `2*jumpForce/|gravity| = 64` ticks
`± 2`, i.e. `62 ≤ 63 ≤ 66` — and the post-tick `positionY` is never
negative at any tick (in particular at every tick of a 200-tick run). -/
theorem jump_scenario_lands_tick63_never_negative :
    simC7 63 = ⟨false, 0, 0⟩ ∧
    (∀ n : Nat, n ≤ 62 → (simC7 n).isJumping = true) ∧
    (∀ n : Nat, 0 ≤ (simC7 n).positionY) := by
  refine ⟨simC7_63, ?_, ?_⟩
  · intro n hn
    rw [simC7_closed n hn]
  · intro n
    exact (simC7_JInv n).1

/-- Witness for C7: the simulator is still airborne at tick 30. -/
theorem jump_scenario_lands_tick63_never_negative_witness :
    (simC7 30).isJumping = true :=
  jump_scenario_lands_tick63_never_negative.2.1 30 (by norm_num)

/-- The scroll-wrap scenario of the spec: the Hills group of
`src/unnamed/part_000` (`speed = 5`, `wrapThreshold = 40`,
`resetValue = 0`) ticked at constant `dt = 1/30` from `offsetX = 0`;
`simC8 n` is the offset after `n` ticks. -/
def simC8 (n : Nat) : ℚ :=
  (fun o => scrollTick hillsV1 (1/30) o)^[n] 0

lemma simC8_succ (n : Nat) :
    simC8 (n + 1) = scrollTick hillsV1 (1/30) (simC8 n) :=
  Function.iterate_succ_apply' _ n _

lemma scrollTick_hillsV1 (o : ℚ) :
    scrollTick hillsV1 (1/30) o = if o - 1/6 < -40 then 0 else o - 1/6 := by
  unfold scrollTick
  norm_num [hillsV1]

/-- Closed form before the wrap: after `n ≤ 240` ticks the offset is
exactly `-n/6`. -/
lemma simC8_closed (n : Nat) (hn : n ≤ 240) : simC8 n = -(n : ℚ)/6 := by
  induction n with
  | zero => norm_num [simC8]
  | succ n ih =>
    rw [simC8_succ, ih (by omega), scrollTick_hillsV1]
    have h2 : (n:ℚ) ≤ 239 := by exact_mod_cast (by omega : n ≤ 239)
    have hc : ¬ (-(n:ℚ)/6 - 1/6 < -40) := by
      push_neg
      linarith
    rw [if_neg hc]
    push_cast
    ring

lemma simC8_241 : simC8 241 = 0 := by
  rw [simC8_succ, simC8_closed 240 (by norm_num), scrollTick_hillsV1]
  norm_num

/-- Counterexample to C8: after exactly `wrapThreshold/(speed*dt) = 240`
ticks the offset is `-40`, not `0` — no reset has occurred yet (the
reset test is strict); the reset happens on tick 241. -/
theorem scroll_wrap_not_at_240 :
    simC8 240 = -40 ∧ simC8 240 ≠ 0 ∧ simC8 241 = 0 := by
  have h := simC8_closed 240 (by norm_num)
  norm_num at h
  refine ⟨h, ?_, simC8_241⟩
  rw [h]
  norm_num

/-- C8 (amended): at constant `dt = 1/30` from `offsetX = 0`, the Hills
offset after `n ≤ 240` ticks is exactly `-n/6` — nonzero for
`1 ≤ n ≤ 240`, so no reset occurs on any of the first 240 ticks (the
offset only reaches the threshold `-40` at tick 240, and the wrap test
is strict) — and the episode's single reset occurs on tick 241, which
sets the offset back to `0`. -/
theorem scroll_wrap_first_reset_tick241 (n : Nat) (hn : n ≤ 240) :
    simC8 n = -(n : ℚ)/6 ∧ (1 ≤ n → simC8 n ≠ 0) ∧ simC8 241 = 0 := by
  refine ⟨simC8_closed n hn, ?_, simC8_241⟩
  intro h1
  rw [simC8_closed n hn]
  have hq : (1:ℚ) ≤ (n:ℚ) := by exact_mod_cast h1
  intro hcon
  have h0 : (n:ℚ) = 0 := by linarith
  linarith

/-- Witness for the amended C8: no reset has occurred by tick 240 and
the reset at tick 241 has, applied at `n = 240`. -/
theorem scroll_wrap_first_reset_tick241_witness :
    simC8 240 ≠ 0 ∧ simC8 241 = 0 := by
  have h := scroll_wrap_first_reset_tick241 240 (by norm_num)
  exact ⟨h.2.1 (by norm_num), h.2.2⟩

/-- x-coordinate of the `i`-th Hills feature of `src/unnamed/part_000`:
`x = i * 8 - 40`, generated for `i < 20`. -/
def hillsXV1 (i : Nat) : ℚ := i * 8 - 40

/-- x-coordinate of the `i`-th cloud cluster of `src/unnamed/part_000`:
`x = i * 20 - 20`, generated for `i < 5`. -/
def cloudsXV1 (i : Nat) : ℚ := i * 20 - 20

/-- x-coordinate of the `i`-th Hills feature of `src/app/index.tsx`:
`x = i * 6 - 60`, generated for `i < 30`. -/
def hillsXV2 (i : Nat) : ℚ := i * 6 - 60

/-- x-coordinate of the `i`-th cloud cluster of `src/app/index.tsx`:
`x = i * 15 - 30`, generated for `i < 7`. -/
def cloudsXV2 (i : Nat) : ℚ := i * 15 - 30

/-- Wrap distance of a scrolling group: `wrapThreshold - resetValue`,
the horizontal jump the group makes when it wraps. -/
def wrapDist (c : ScrollCfg) : ℚ := c.wrapThreshold - c.resetValue

/-- Counterexample to C9: in every scrolling group of both scene
versions, the x-spacing between consecutive features differs from the
group's wrap distance (8 vs 40, 20 vs 50, 6 vs 60, 15 vs 60). -/
theorem spacing_ne_wrap_distance :
    (hillsXV1 1 - hillsXV1 0 = 8 ∧ wrapDist hillsV1 = 40 ∧
      hillsXV1 1 - hillsXV1 0 ≠ wrapDist hillsV1) ∧
    (cloudsXV1 1 - cloudsXV1 0 = 20 ∧ wrapDist cloudsV1 = 50 ∧
      cloudsXV1 1 - cloudsXV1 0 ≠ wrapDist cloudsV1) ∧
    (hillsXV2 1 - hillsXV2 0 = 6 ∧ wrapDist hillsV2 = 60 ∧
      hillsXV2 1 - hillsXV2 0 ≠ wrapDist hillsV2) ∧
    (cloudsXV2 1 - cloudsXV2 0 = 15 ∧ wrapDist cloudsV2 = 60 ∧
      cloudsXV2 1 - cloudsXV2 0 ≠ wrapDist cloudsV2) := by
  norm_num [hillsXV1, cloudsXV1, hillsXV2, cloudsXV2, wrapDist,
    hillsV1, cloudsV1, hillsV2, cloudsV2]

/-- C9 (amended): in every group the consecutive x-spacing is constant
(8, 20, 6 and 15 respectively) but in no group does it equal the wrap
distance (40, 50, 60, 60).  The wrap distance is a whole multiple of the
spacing for Hills of `part_000` (5 × 8), Hills of `index.tsx` (10 × 6)
and Clouds of `index.tsx` (4 × 15) — those wraps re-align the x-grid up
to feature identity — but not for Clouds of `part_000`, whose wrap
distance 50 is no natural multiple of its spacing 20, so that wrap does
not re-align the repeating pattern. -/
theorem spacing_vs_wrap_distance (i j k l : Nat)
    (hi : i + 1 < 20) (hj : j + 1 < 5) (hk : k + 1 < 30) (hl : l + 1 < 7) :
    hillsXV1 (i+1) - hillsXV1 i = 8 ∧
    cloudsXV1 (j+1) - cloudsXV1 j = 20 ∧
    hillsXV2 (k+1) - hillsXV2 k = 6 ∧
    cloudsXV2 (l+1) - cloudsXV2 l = 15 ∧
    wrapDist hillsV1 = 5 * 8 ∧
    wrapDist hillsV2 = 10 * 6 ∧
    wrapDist cloudsV2 = 4 * 15 ∧
    (¬ ∃ m : Nat, (m : ℚ) * 20 = wrapDist cloudsV1) ∧
    wrapDist hillsV1 ≠ 8 ∧ wrapDist cloudsV1 ≠ 20 ∧
    wrapDist hillsV2 ≠ 6 ∧ wrapDist cloudsV2 ≠ 15 := by
  refine ⟨?_, ?_, ?_, ?_, ?_, ?_, ?_, ?_, ?_, ?_, ?_, ?_⟩
  · unfold hillsXV1; push_cast; ring
  · unfold cloudsXV1; push_cast; ring
  · unfold hillsXV2; push_cast; ring
  · unfold cloudsXV2; push_cast; ring
  · norm_num [wrapDist, hillsV1]
  · norm_num [wrapDist, hillsV2]
  · norm_num [wrapDist, cloudsV2]
  · rintro ⟨m, hm⟩
    rw [show wrapDist cloudsV1 = 50 from by norm_num [wrapDist, cloudsV1]] at hm
    have h2 : ((2 * m : Nat) : ℚ) = 5 := by
      push_cast
      linarith
    have h3 : 2 * m = 5 := by exact_mod_cast h2
    omega
  · norm_num [wrapDist, hillsV1]
  · norm_num [wrapDist, cloudsV1]
  · norm_num [wrapDist, hillsV2]
  · norm_num [wrapDist, cloudsV2]

/-- Witness for the amended C9: the first pair of features in each
group, `i = j = k = l = 0`. -/
theorem spacing_vs_wrap_distance_witness :
    hillsXV1 1 - hillsXV1 0 = 8 ∧ wrapDist hillsV1 = 5 * 8 := by
  have h := spacing_vs_wrap_distance 0 0 0 0
    (by norm_num) (by norm_num) (by norm_num) (by norm_num)
  exact ⟨h.1, h.2.2.2.2.1⟩
